import Mathlib

/-!
Shallow embedding of the ICS-4 channel context (`crates/ibc/src/core/ics04_channel/context.rs`)
and the ICS-20 refund path (`crates/ibc/src/applications/transfer/relay.rs`) of the
cosmos IBC library, together with theorems settling the specification claims about them.

Machine integers (u64) are modelled as `Nat`; the values that reach them in the code
(timestamp nanoseconds, revision numbers and heights, sequence numbers) are u64 in the
source, so byte serialisation is stated for the u64 range. Rust panics (`unreachable!`,
out-of-bounds `Vec` indexing, `Result::expect`) are modelled by the `panics` outcome of
`PanicOr`. Host-provided trait methods without default bodies (the store primitives of
`ChannelKeeper`, the injected `hash`) are modelled from the spec as canonical store-key
updates, respectively as an abstract function parameter.
-/

namespace Ibc

/-- Big-endian serialisation of a u64 value (`u64::to_be_bytes`): eight bytes,
most significant first. Inputs are u64 values, hence already below `2 ^ 64`. -/
def be64 (n : Nat) : List Nat :=
  [n / 2 ^ 56 % 256, n / 2 ^ 48 % 256, n / 2 ^ 40 % 256, n / 2 ^ 32 % 256,
   n / 2 ^ 24 % 256, n / 2 ^ 16 % 256, n / 2 ^ 8 % 256, n % 256]

/-- Modelled from the spec (the `Height` type is not under `src/`):
`(revision_number, revision_height)`, both 64-bit unsigned. -/
structure Height where
  revision_number : Nat
  revision_height : Nat
deriving DecidableEq

/-- Modelled from the spec (the `TimeoutHeight` type is not under `src/`): an optional
timeout height, `Never` meaning "no timeout height". -/
inductive TimeoutHeight where
  | Never : TimeoutHeight
  | At : Height → TimeoutHeight
deriving DecidableEq

/-- Modelled from the spec (the `TimeoutHeight` accessors are not under `src/`):
the revision number used for commitment purposes; an absent height contributes `0`. -/
def TimeoutHeight.commitment_revision_number : TimeoutHeight → Nat
  | .Never => 0
  | .At h => h.revision_number

/-- Modelled from the spec (the `TimeoutHeight` accessors are not under `src/`):
the revision height used for commitment purposes; an absent height contributes `0`. -/
def TimeoutHeight.commitment_revision_height : TimeoutHeight → Nat
  | .Never => 0
  | .At h => h.revision_height

/-- Modelled from the spec (the `Timestamp` type is not under `src/`): nanoseconds since
the Unix epoch, with "no timestamp" a distinguished absent value. -/
structure Timestamp where
  time : Option Nat
deriving DecidableEq

/-- Modelled from the spec (the `Timestamp` accessors are not under `src/`):
`Timestamp::nanoseconds`, an absent timestamp contributing `0`. -/
def Timestamp.nanoseconds (t : Timestamp) : Nat :=
  t.time.getD 0

/-- The default method `ChannelReader::packet_commitment` (context.rs lines 98-116),
with the host-injected `ChannelReader::hash` as the abstract parameter `hash` and byte
strings as `List Nat`. The `hash_input` vector is built exactly as in the source:
timestamp nanoseconds, then the commitment revision number and height, then the hash of
the packet data, each u64 serialised big-endian. -/
def ChannelReader.packet_commitment (hash : List Nat → List Nat) (packet_data : List Nat)
    (timeout_height : TimeoutHeight) (timeout_timestamp : Timestamp) : List Nat :=
  hash (be64 timeout_timestamp.nanoseconds
    ++ be64 timeout_height.commitment_revision_number
    ++ be64 timeout_height.commitment_revision_height
    ++ hash packet_data)

/-- The default method `SendPacketReader::packet_commitment` (context.rs lines 202-220),
a second, separately written transcription of that source body, with
`SendPacketReader::hash` as the abstract parameter `hash`. Under the blanket
`impl<T: ChannelReader> SendPacketReader for T`, `SendPacketReader::hash` delegates to
`ChannelReader::hash`, so in the comparison theorem both receive the same `hash`. -/
def SendPacketReader.packet_commitment (hash : List Nat → List Nat) (packet_data : List Nat)
    (timeout_height : TimeoutHeight) (timeout_timestamp : Timestamp) : List Nat :=
  hash (be64 timeout_timestamp.nanoseconds
    ++ be64 timeout_height.commitment_revision_number
    ++ be64 timeout_height.commitment_revision_height
    ++ hash packet_data)

/-- The commitment formula exactly as the specification words it:
`H( timeout_timestamp_be64 ‖ timeout_revision_number_be64 ‖ timeout_revision_height_be64
‖ H(packet_data) )`, with an absent timeout height contributing `(0, 0)` and an absent
timeout timestamp contributing `0`. Written from the spec's words, to be compared with
the definition transcribed from the source. -/
def packet_commitment_spec_formula (hash : List Nat → List Nat) (packet_data : List Nat)
    (timeout_height : TimeoutHeight) (timeout_timestamp : Timestamp) : List Nat :=
  let ts : Nat :=
    match timeout_timestamp.time with
    | none => 0
    | some n => n
  let rn : Nat :=
    match timeout_height with
    | .Never => 0
    | .At h => h.revision_number
  let rh : Nat :=
    match timeout_height with
    | .Never => 0
    | .At h => h.revision_height
  hash (be64 ts ++ be64 rn ++ be64 rh ++ hash packet_data)

/-- C1: for every packet_data byte string, timeout height and timeout timestamp,
`ChannelReader::packet_commitment` returns
`H( timeout_timestamp_be64 ‖ timeout_revision_number_be64 ‖ timeout_revision_height_be64
‖ H(packet_data) )`, an absent timeout height contributing `(0, 0)` and an absent
timeout timestamp contributing `0`. Purity — that the result is a function of exactly
`(packet_data, timeout_height, timeout_timestamp)` for a fixed context hash — holds
because the embedded definition is a mathematical function of exactly those arguments,
which the equation exhibits. -/
theorem packet_commitment_matches_spec (hash : List Nat → List Nat) (packet_data : List Nat)
    (timeout_height : TimeoutHeight) (timeout_timestamp : Timestamp) :
    ChannelReader.packet_commitment hash packet_data timeout_height timeout_timestamp =
      packet_commitment_spec_formula hash packet_data timeout_height timeout_timestamp := by
  obtain ⟨t⟩ := timeout_timestamp
  cases timeout_height <;> cases t <;> rfl

/-- C9: the two separately defined default methods `ChannelReader::packet_commitment`
and `SendPacketReader::packet_commitment` compute identical commitment bytes on every
input, for every context (the blanket impl makes `SendPacketReader::hash` delegate to
`ChannelReader::hash`, so both bodies run with the context's one hash function). -/
theorem packet_commitment_reader_agreement (hash : List Nat → List Nat)
    (packet_data : List Nat) (timeout_height : TimeoutHeight) (timeout_timestamp : Timestamp) :
    ChannelReader.packet_commitment hash packet_data timeout_height timeout_timestamp =
      SendPacketReader.packet_commitment hash packet_data timeout_height timeout_timestamp := by
  rfl

abbrev PortId := String

abbrev ChannelId := String

abbrev ConnectionId := String

abbrev Sequence := Nat

/-- The `Receipt` presence token stored on unordered channels. -/
inductive Receipt where
  | Ok : Receipt
deriving DecidableEq

/-- Modelled from the spec (the `ChannelEnd` type is not under `src/`): channel state
in `{Uninitialized, Init, TryOpen, Open, Closed}`. -/
inductive ChannelState where
  | Uninitialized
  | Init
  | TryOpen
  | Open
  | Closed
deriving DecidableEq

/-- Modelled from the spec (the `Order` type is not under `src/`): channel ordering,
`Ordered` or `Unordered`. Named `ChannelOrder` here because `Order` is taken. -/
inductive ChannelOrder where
  | Ordered
  | Unordered
deriving DecidableEq

/-- Modelled from the spec (the `Counterparty` type is not under `src/`):
`Counterparty{port_id, channel_id?}`. -/
structure ChannelCounterparty where
  port_id : PortId
  channel_id : Option ChannelId
deriving DecidableEq

/-- Modelled from the spec (the `ChannelEnd` type is not under `src/`): state, ordering,
counterparty, `connection_hops` (a list of connection identifiers — the spec constrains
it to be non-empty, but the Rust type is a plain `Vec` and an empty list is
constructible), and an opaque version string. -/
structure ChannelEnd where
  state : ChannelState
  ordering : ChannelOrder
  remote : ChannelCounterparty
  connection_hops : List ConnectionId
  version : String
deriving DecidableEq

/-- `ChannelIdState` from the ICS-4 handler module: whether the handler freshly
generated the channel identifier or reused an existing one. -/
inductive ChannelIdState where
  | Generated
  | Reused
deriving DecidableEq

/-- `ChannelResult`, the handler output consumed by `ChannelKeeper::store_channel_result`
(fields as read by context.rs lines 267-306). -/
structure ChannelResult where
  port_id : PortId
  channel_id : ChannelId
  channel_id_state : ChannelIdState
  channel_end : ChannelEnd

/-- `RecvPacketResult` (fields as read by context.rs lines 319-332): anti-replay record
of a validated receive — the bumped `next_seq_recv` on an ordered channel, the receipt
on an unordered channel, or `NoOp` for a harmless duplicate. -/
inductive RecvPacketResult where
  | Ordered (port_id : PortId) (channel_id : ChannelId) (next_seq_recv : Sequence)
  | Unordered (port_id : PortId) (channel_id : ChannelId) (sequence : Sequence)
      (receipt : Receipt)
  | NoOp

/-- The `Send` payload of `PacketResult` (fields as read by context.rs lines 310-318). -/
structure SendPacketResult where
  port_id : PortId
  channel_id : ChannelId
  seq : Sequence
  seq_number : Sequence
  commitment : List Nat

/-- The `WriteAck` payload of `PacketResult` (fields as read by context.rs
lines 333-340). -/
structure WriteAckPacketResult where
  port_id : PortId
  channel_id : ChannelId
  seq : Sequence
  ack_commitment : List Nat

/-- The `Ack` payload of `PacketResult` (fields as read by context.rs lines 341-347):
`seq_number` is `Some` exactly on ordered channels. -/
structure AckPacketResult where
  port_id : PortId
  channel_id : ChannelId
  seq : Sequence
  seq_number : Option Sequence

/-- The `Timeout` payload of `PacketResult` (fields as read by context.rs
lines 348-355): `channel` is `Some` (the closed channel end) exactly on ordered
channels. -/
structure TimeoutPacketResult where
  port_id : PortId
  channel_id : ChannelId
  seq : Sequence
  channel : Option ChannelEnd

/-- `PacketResult`, the handler output consumed by
`ChannelKeeper::store_packet_result`. -/
inductive PacketResult where
  | Send (res : SendPacketResult)
  | Recv (res : RecvPacketResult)
  | WriteAck (res : WriteAckPacketResult)
  | Ack (res : AckPacketResult)
  | Timeout (res : TimeoutPacketResult)

/-- Modelled from the spec (the host's store is not under `src/`): the provable store
as seen through the `ChannelKeeper` primitives, one field per store-key family of
spec §6, plus the global channel counter and the connection→channels association. -/
structure Store where
  channels : PortId × ChannelId → Option ChannelEnd
  channel_counter : Nat
  connection_channels : List (ConnectionId × PortId × ChannelId)
  next_sequence_send : PortId × ChannelId → Option Sequence
  next_sequence_recv : PortId × ChannelId → Option Sequence
  next_sequence_ack : PortId × ChannelId → Option Sequence
  packet_commitments : PortId × ChannelId × Sequence → Option (List Nat)
  packet_receipts : PortId × ChannelId × Sequence → Option Receipt
  packet_acks : PortId × ChannelId × Sequence → Option (List Nat)

/-- Modelled from the spec: the host primitive `ChannelKeeper::store_channel`, writing
the channel end under `channelEnds/ports/{port_id}/channels/{channel_id}`. -/
def store_channel (s : Store) (port_id : PortId) (channel_id : ChannelId)
    (channel_end : ChannelEnd) : Store :=
  { s with channels := fun k =>
      if k = (port_id, channel_id) then some channel_end else s.channels k }

/-- Modelled from the spec: the host primitive `ChannelKeeper::increase_channel_counter`
("Should never fail"), bumping the single global channel counter by one. -/
def increase_channel_counter (s : Store) : Store :=
  { s with channel_counter := s.channel_counter + 1 }

/-- Modelled from the spec: the host primitive `ChannelKeeper::store_connection_channels`,
associating the channel with its connection. -/
def store_connection_channels (s : Store) (conn_id : ConnectionId) (port_id : PortId)
    (channel_id : ChannelId) : Store :=
  { s with connection_channels := s.connection_channels ++ [(conn_id, port_id, channel_id)] }

/-- Modelled from the spec: the host primitive `ChannelKeeper::store_next_sequence_send`. -/
def store_next_sequence_send (s : Store) (port_id : PortId) (channel_id : ChannelId)
    (seq : Sequence) : Store :=
  { s with next_sequence_send := fun k =>
      if k = (port_id, channel_id) then some seq else s.next_sequence_send k }

/-- Modelled from the spec: the host primitive `ChannelKeeper::store_next_sequence_recv`. -/
def store_next_sequence_recv (s : Store) (port_id : PortId) (channel_id : ChannelId)
    (seq : Sequence) : Store :=
  { s with next_sequence_recv := fun k =>
      if k = (port_id, channel_id) then some seq else s.next_sequence_recv k }

/-- Modelled from the spec: the host primitive `ChannelKeeper::store_next_sequence_ack`. -/
def store_next_sequence_ack (s : Store) (port_id : PortId) (channel_id : ChannelId)
    (seq : Sequence) : Store :=
  { s with next_sequence_ack := fun k =>
      if k = (port_id, channel_id) then some seq else s.next_sequence_ack k }

/-- Modelled from the spec: the host primitive `ChannelKeeper::store_packet_commitment`. -/
def store_packet_commitment (s : Store) (port_id : PortId) (channel_id : ChannelId)
    (seq : Sequence) (commitment : List Nat) : Store :=
  { s with packet_commitments := fun k =>
      if k = (port_id, channel_id, seq) then some commitment else s.packet_commitments k }

/-- Modelled from the spec: the host primitive `ChannelKeeper::delete_packet_commitment`. -/
def delete_packet_commitment (s : Store) (port_id : PortId) (channel_id : ChannelId)
    (seq : Sequence) : Store :=
  { s with packet_commitments := fun k =>
      if k = (port_id, channel_id, seq) then none else s.packet_commitments k }

/-- Modelled from the spec: the host primitive `ChannelKeeper::store_packet_receipt`. -/
def store_packet_receipt (s : Store) (port_id : PortId) (channel_id : ChannelId)
    (seq : Sequence) (receipt : Receipt) : Store :=
  { s with packet_receipts := fun k =>
      if k = (port_id, channel_id, seq) then some receipt else s.packet_receipts k }

/-- Modelled from the spec: the host primitive
`ChannelKeeper::store_packet_acknowledgement`. -/
def store_packet_acknowledgement (s : Store) (port_id : PortId) (channel_id : ChannelId)
    (seq : Sequence) (ack_commitment : List Nat) : Store :=
  { s with packet_acks := fun k =>
      if k = (port_id, channel_id, seq) then some ack_commitment else s.packet_acks k }

/-- Outcome of running Rust code that may panic: either a panic (`unreachable!`,
out-of-bounds indexing, `expect` on `Err`) or a normal value. -/
inductive PanicOr (α : Type) where
  | panics : PanicOr α
  | ok : α → PanicOr α
deriving DecidableEq

/-- The default method `ChannelKeeper::store_channel_result` (context.rs lines 267-306).
The source first evaluates `result.channel_end.connection_hops()[0]` — a `Vec` index
that panics when `connection_hops` is empty — then stores the channel end, and, exactly
when the channel identifier was freshly generated, increases the channel counter,
associates the channel with its connection, and initialises the three sequence numbers
to 1. The host store primitives are modelled as always-succeeding store updates, so the
`Result` layer of the source collapses to the `ok` outcome. -/
def ChannelKeeper.store_channel_result (s : Store) (result : ChannelResult) :
    PanicOr Store :=
  match result.channel_end.connection_hops with
  | [] => .panics
  | connection_id :: _ =>
    let s := store_channel s result.port_id result.channel_id result.channel_end
    match result.channel_id_state with
    | .Generated =>
      let s := increase_channel_counter s
      let s := store_connection_channels s connection_id result.port_id result.channel_id
      let s := store_next_sequence_send s result.port_id result.channel_id 1
      let s := store_next_sequence_recv s result.port_id result.channel_id 1
      let s := store_next_sequence_ack s result.port_id result.channel_id 1
      .ok s
    | .Reused => .ok s

/-- The default method `ChannelKeeper::store_packet_result` (context.rs lines 308-358).
`Recv` of `RecvPacketResult::NoOp` executes `unreachable!()` in the source, modelled as
the `panics` outcome. The host store primitives are modelled as always-succeeding store
updates, so the `Result` layer of the source collapses to the `ok` outcome. -/
def ChannelKeeper.store_packet_result (s : Store) (general_result : PacketResult) :
    PanicOr Store :=
  match general_result with
  | .Send res =>
    let s := store_next_sequence_send s res.port_id res.channel_id res.seq_number
    .ok (store_packet_commitment s res.port_id res.channel_id res.seq res.commitment)
  | .Recv res =>
    match res with
    | .Ordered port_id channel_id next_seq_recv =>
      .ok (store_next_sequence_recv s port_id channel_id next_seq_recv)
    | .Unordered port_id channel_id sequence receipt =>
      .ok (store_packet_receipt s port_id channel_id sequence receipt)
    | .NoOp => .panics
  | .WriteAck res =>
    .ok (store_packet_acknowledgement s res.port_id res.channel_id res.seq res.ack_commitment)
  | .Ack res =>
    let s := delete_packet_commitment s res.port_id res.channel_id res.seq
    match res.seq_number with
    | some n => .ok (store_next_sequence_ack s res.port_id res.channel_id n)
    | none => .ok s
  | .Timeout res =>
    let s := delete_packet_commitment s res.port_id res.channel_id res.seq
    match res.channel with
    | some c => .ok (store_channel s res.port_id res.channel_id c)
    | none => .ok s

/-- A concrete empty store, used to state closed counterexamples and witnesses. -/
def emptyStore : Store :=
  { channels := fun _ => none
    channel_counter := 0
    connection_channels := []
    next_sequence_send := fun _ => none
    next_sequence_recv := fun _ => none
    next_sequence_ack := fun _ => none
    packet_commitments := fun _ => none
    packet_receipts := fun _ => none
    packet_acks := fun _ => none }

/-- A concrete channel end whose `connection_hops` list is empty — constructible, since
the Rust field is a plain `Vec<ConnectionId>`. -/
def noHopsChannelEnd : ChannelEnd :=
  { state := .Init
    ordering := .Unordered
    remote := { port_id := "transfer", channel_id := none }
    connection_hops := []
    version := "ics20-1" }

/-- C3: claimed no-op on `PacketResult::Recv(RecvPacketResult::NoOp)`. The source
instead executes `unreachable!()` (context.rs line 331): for every store, the embedded
`store_packet_result` reaches the panic outcome, returning no `Ok(())` and writing
nothing — the code contradicts the claimed (and spec-intended) no-op behaviour. -/
theorem store_packet_result_noop_panics (s : Store) :
    ChannelKeeper.store_packet_result s (.Recv .NoOp) = .panics := by
  rfl

/-- C4, counterexample: a `ChannelResult` whose channel end has an empty
`connection_hops` list makes `store_channel_result` panic at the eager
`connection_hops()[0]` index (context.rs line 268) before any store write, so the
claimed "for every ChannelResult, stores the channel end under (port_id, channel_id)"
fails at this concrete input (the outcome is a panic, not an `Ok` with the channel end
stored). -/
theorem store_channel_result_empty_hops_counterexample :
    ChannelKeeper.store_channel_result emptyStore
      ⟨"transfer", "channel-0", .Generated, noHopsChannelEnd⟩ = .panics := by
  rfl

/-- C4, amended: for every `ChannelResult` whose channel end has a non-empty
`connection_hops` list, `store_channel_result` stores the channel end under
`(port_id, channel_id)`; and it increments the channel counter exactly once, appends
the (connection, port, channel) association, and stores
`next_sequence_send = next_sequence_recv = next_sequence_ack = 1`, if and only if
`channel_id_state` is `Generated` — for `Reused` the stored channel end is the only
change. Both outcomes are stated as full record equalities, so every untouched store
field is pinned unchanged. (For an empty `connection_hops` list the method panics; the
claim's universal quantification is weakened only by that.) -/
theorem store_channel_result_spec (s : Store) (port_id : PortId) (channel_id : ChannelId)
    (st : ChannelState) (ord : ChannelOrder) (rem : ChannelCounterparty)
    (connection_id : ConnectionId) (rest : List ConnectionId) (version : String) :
    ChannelKeeper.store_channel_result s
        ⟨port_id, channel_id, .Generated, ⟨st, ord, rem, connection_id :: rest, version⟩⟩ =
      .ok { channels := fun k =>
              if k = (port_id, channel_id)
              then some (ChannelEnd.mk st ord rem (connection_id :: rest) version)
              else s.channels k
            channel_counter := s.channel_counter + 1
            connection_channels :=
              s.connection_channels ++ [(connection_id, port_id, channel_id)]
            next_sequence_send := fun k =>
              if k = (port_id, channel_id) then some 1 else s.next_sequence_send k
            next_sequence_recv := fun k =>
              if k = (port_id, channel_id) then some 1 else s.next_sequence_recv k
            next_sequence_ack := fun k =>
              if k = (port_id, channel_id) then some 1 else s.next_sequence_ack k
            packet_commitments := s.packet_commitments
            packet_receipts := s.packet_receipts
            packet_acks := s.packet_acks } ∧
    ChannelKeeper.store_channel_result s
        ⟨port_id, channel_id, .Reused, ⟨st, ord, rem, connection_id :: rest, version⟩⟩ =
      .ok { s with channels := fun k =>
              if k = (port_id, channel_id)
              then some (ChannelEnd.mk st ord rem (connection_id :: rest) version)
              else s.channels k } := by
  exact ⟨rfl, rfl⟩

/-- C6: on a `Recv` result other than `NoOp`, `store_packet_result` writes exactly the
anti-replay record for the channel's ordering: for `Ordered` it stores the carried
`next_seq_recv` under `(port, channel)`, for `Unordered` it stores the carried receipt
under `(port, channel, sequence)`; each outcome is a full record equality, so every
other store field — and, through the pointwise update function, every other key of the
written field — is unchanged. -/
theorem store_packet_result_recv_spec (s : Store) (port_id : PortId)
    (channel_id : ChannelId) (next_seq_recv : Sequence) (sequence : Sequence)
    (receipt : Receipt) :
    ChannelKeeper.store_packet_result s (.Recv (.Ordered port_id channel_id next_seq_recv)) =
      .ok { s with next_sequence_recv := fun k =>
              if k = (port_id, channel_id) then some next_seq_recv
              else s.next_sequence_recv k } ∧
    ChannelKeeper.store_packet_result s
        (.Recv (.Unordered port_id channel_id sequence receipt)) =
      .ok { s with packet_receipts := fun k =>
              if k = (port_id, channel_id, sequence) then some receipt
              else s.packet_receipts k } := by
  exact ⟨rfl, rfl⟩

/-- C7: on an `Ack` result, `store_packet_result` deletes the packet commitment at
`(port, channel, sequence)`, and stores a new `next_sequence_ack` if and only if the
result carries a sequence number (`seq_number = some n`, the ordered-channel case);
with `seq_number = none` the `next_sequence_ack` field is left unchanged. Full record
equalities pin every other store field unchanged. -/
theorem store_packet_result_ack_spec (s : Store) (port_id : PortId)
    (channel_id : ChannelId) (seq : Sequence) (n : Sequence) :
    ChannelKeeper.store_packet_result s (.Ack ⟨port_id, channel_id, seq, some n⟩) =
      .ok { s with
            packet_commitments := fun k =>
              if k = (port_id, channel_id, seq) then none else s.packet_commitments k
            next_sequence_ack := fun k =>
              if k = (port_id, channel_id) then some n else s.next_sequence_ack k } ∧
    ChannelKeeper.store_packet_result s (.Ack ⟨port_id, channel_id, seq, none⟩) =
      .ok { s with packet_commitments := fun k =>
              if k = (port_id, channel_id, seq) then none else s.packet_commitments k } := by
  exact ⟨rfl, rfl⟩

/-- C8: on a `Timeout` result, `store_packet_result` deletes the packet commitment at
`(port, channel, sequence)`; the channel end under `(port, channel)` is rewritten (to
the carried closed channel) if and only if the result carries a channel (the
ordered-channel case). Full record equalities pin every other store field — sequence
counters, receipts, acknowledgements — unchanged. -/
theorem store_packet_result_timeout_spec (s : Store) (port_id : PortId)
    (channel_id : ChannelId) (seq : Sequence) (c : ChannelEnd) :
    ChannelKeeper.store_packet_result s (.Timeout ⟨port_id, channel_id, seq, some c⟩) =
      .ok { s with
            packet_commitments := fun k =>
              if k = (port_id, channel_id, seq) then none else s.packet_commitments k
            channels := fun k =>
              if k = (port_id, channel_id) then some c else s.channels k } ∧
    ChannelKeeper.store_packet_result s (.Timeout ⟨port_id, channel_id, seq, none⟩) =
      .ok { s with packet_commitments := fun k =>
              if k = (port_id, channel_id, seq) then none else s.packet_commitments k } := by
  exact ⟨rfl, rfl⟩

/-- Modelled from the spec (the coin type is not under `src/`): a token as a denom
string (the full trace path) and an amount. -/
structure Coin where
  denom : String
  amount : Nat
deriving DecidableEq

/-- Modelled from the spec (the `PacketData` type is not under `src/`): the ICS-20
packet payload `{denom, amount, sender, receiver, memo}`, the token as a `Coin`. -/
structure PacketData where
  token : Coin
  sender : String
  receiver : String
  memo : String

/-- Modelled from the spec (the `Packet` type is not under `src/`): sequence, source
port/channel (`_on_a`), destination port/channel (`_on_b`), data bytes and the two
timeouts. -/
structure Packet where
  seq_on_a : Sequence
  port_id_on_a : PortId
  chan_id_on_a : ChannelId
  port_id_on_b : PortId
  chan_id_on_b : ChannelId
  data : List Nat
  timeout_height_on_b : TimeoutHeight
  timeout_timestamp_on_b : Timestamp

/-- Modelled from the spec (`is_sender_chain_source` is not under `src/`): spec I6 —
it holds iff the denom trace does not begin with `"{port}/{channel}/"`. -/
def is_sender_chain_source (port_id : PortId) (channel_id : ChannelId)
    (denom : String) : Bool :=
  !(String.startsWith denom (port_id ++ "/" ++ channel_id ++ "/"))

/-- The ICS-20 error type as used by relay.rs; only the variant the refund path can
produce is needed. -/
inductive TokenTransferError where
  | ParseAccountFailure
deriving DecidableEq

/-- A bank operation requested by the transfer application on its execution context:
either an unescrow from the per-(port, channel) escrow account to an account, or a
mint of vouchers to an account. -/
inductive BankOp where
  | unescrow (port_id : PortId) (channel_id : ChannelId) (account : String) (coin : Coin)
  | mint (account : String) (coin : Coin)
deriving DecidableEq

/-- Modelled from the spec (the `TokenTransferExecutionContext` trait is not under
`src/`): the execution context as the ordered log of bank operations it has been asked
to perform. An operation moves funds exactly when it is appended to the log. -/
structure BankCtx where
  ops : List BankOp
deriving DecidableEq

/-- Modelled from the spec: the host primitive `unescrow_coins_execute`, releasing the
coin from the (port, channel) escrow account to `account`. -/
def unescrow_coins_execute (ctx : BankCtx) (port_id : PortId) (channel_id : ChannelId)
    (account : String) (coin : Coin) : BankCtx :=
  { ops := ctx.ops ++ [.unescrow port_id channel_id account coin] }

/-- Modelled from the spec: the host primitive `mint_coins_execute`, minting the coin
to `account`. -/
def mint_coins_execute (ctx : BankCtx) (account : String) (coin : Coin) : BankCtx :=
  { ops := ctx.ops ++ [.mint account coin] }

/-- `refund_packet_token_execute` (relay.rs lines 13-40). The sender signer is parsed
into an account by the host's `TryFrom` conversion, modelled as the abstract
`parse_account`; on failure the function returns `ParseAccountFailure` having requested
no bank operation. Otherwise it unescrows to the sender from the
`(port_id_on_a, chan_id_on_a)` escrow when `is_sender_chain_source` holds, and mints to
the sender when it does not. -/
def refund_packet_token_execute (parse_account : String → Option String)
    (ctx_a : BankCtx) (packet : Packet) (data : PacketData) :
    Except TokenTransferError BankCtx :=
  match parse_account data.sender with
  | none => .error .ParseAccountFailure
  | some sender =>
    if is_sender_chain_source packet.port_id_on_a packet.chan_id_on_a data.token.denom
    then .ok (unescrow_coins_execute ctx_a packet.port_id_on_a packet.chan_id_on_a
      sender data.token)
    else .ok (mint_coins_execute ctx_a sender data.token)

/-- C2: for every packet and packet data whose sender parses successfully,
`refund_packet_token_execute` appends exactly one bank operation, which is an unescrow
from the (source port, source channel) escrow to the sender if and only if
`is_sender_chain_source(source_port, source_channel, denom)` holds (the appended
operation is a mint to the sender otherwise — the two constructors are distinct); if
the sender fails to parse it returns `ParseAccountFailure` and the operation log is
untouched (no successor context is produced at all). -/
theorem refund_packet_token_execute_spec (parse_account : String → Option String)
    (ctx_a : BankCtx) (packet : Packet) (data : PacketData) :
    (∀ sender, parse_account data.sender = some sender →
      refund_packet_token_execute parse_account ctx_a packet data =
        .ok { ops := ctx_a.ops ++
          [if is_sender_chain_source packet.port_id_on_a packet.chan_id_on_a
              data.token.denom
           then BankOp.unescrow packet.port_id_on_a packet.chan_id_on_a sender data.token
           else BankOp.mint sender data.token] }) ∧
    (parse_account data.sender = none →
      refund_packet_token_execute parse_account ctx_a packet data =
        .error .ParseAccountFailure) := by
  constructor
  · intro sender h
    unfold refund_packet_token_execute
    rw [h]
    by_cases hs : is_sender_chain_source packet.port_id_on_a packet.chan_id_on_a
      data.token.denom = true
    · simp only [hs, if_true]
      rfl
    · simp only [Bool.not_eq_true] at hs
      simp only [hs, Bool.false_eq_true, if_false]
      rfl
  · intro h
    unfold refund_packet_token_execute
    rw [h]

/-- Witness for C2 at a concrete input: `alice` parses, the denom `uatom` carries no
`transfer/channel-0/` trace, so the refund unescrows to `alice`. -/
theorem refund_packet_token_execute_spec_witness :
    refund_packet_token_execute (fun s => if s = "alice" then some "alice" else none)
      ⟨[]⟩
      ⟨1, "transfer", "channel-0", "transfer", "channel-1", [], .Never, ⟨none⟩⟩
      ⟨⟨"uatom", 100⟩, "alice", "bob", ""⟩ =
      .ok ⟨[BankOp.unescrow "transfer" "channel-0" "alice" ⟨"uatom", 100⟩]⟩ :=
  (refund_packet_token_execute_spec (fun s => if s = "alice" then some "alice" else none)
    ⟨[]⟩ ⟨1, "transfer", "channel-0", "transfer", "channel-1", [], .Never, ⟨none⟩⟩
    ⟨⟨"uatom", 100⟩, "alice", "bob", ""⟩).1 "alice" rfl

/-- A duration as Rust's `core::time::Duration` stores it: whole seconds and a
sub-second nanosecond part. -/
structure Duration where
  secs : Nat
  nanos : Nat
deriving DecidableEq

/-- Total length of the duration in nanoseconds (`Duration::as_nanos`). -/
def Duration.as_nanos (d : Duration) : Nat :=
  d.secs * 1000000000 + d.nanos

/-- Modelled from the spec: the portable integer-only form of `calculate_block_delay`
named by the claim — `0` when the block time is zero, and otherwise the exact ceiling
`(delay_ns + block_ns − 1) / block_ns`. The source (context.rs lines 440-450) instead
computes `ceil(delay.as_secs_f64() / block.as_secs_f64()) as u64` in f64 arithmetic. -/
def calculate_block_delay_exact (delay_period_time : Duration)
    (max_expected_time_per_block : Duration) : Nat :=
  if max_expected_time_per_block.as_nanos = 0 then 0
  else (delay_period_time.as_nanos + max_expected_time_per_block.as_nanos - 1) /
    max_expected_time_per_block.as_nanos

/-- The natural numbers exactly representable as an IEEE-754 binary64 value: a
significand below `2 ^ 53` times a power of two. Every step of the source's pipeline
(`as_secs_f64`, f64 division, `ceil`, the saturating cast to u64) yields the integer
value of some binary64 value, so every value `calculate_block_delay` can return is of
this form. -/
def representableF64 (v : Nat) : Prop :=
  ∃ m e, m < 2 ^ 53 ∧ v = m * 2 ^ e

/-- C5: refutation of the floating-point path at a concrete input. With
`delay_period_time = 9007199254740993 s` (that is, `2 ^ 53 + 1` seconds) and
`max_expected_time_per_block = 1 s`, the exact ceiling is `9007199254740993`; but
`9007199254740993` is odd and at least `2 ^ 53`, hence representable by no binary64
value, while the u64 the source computes through f64 arithmetic is always the value of
a binary64 value (`(2 ^ 53 + 1) as f64` rounds to `2 ^ 53`, so the source returns
`9007199254740992`). The code therefore cannot return the exact ceiling the claim
states. -/
theorem calculate_block_delay_float_diverges :
    calculate_block_delay_exact ⟨9007199254740993, 0⟩ ⟨1, 0⟩ = 9007199254740993 ∧
    ¬ representableF64 9007199254740993 := by
  constructor
  · rfl
  · rintro ⟨m, e, hm, hv⟩
    have h53 : (2 : Nat) ^ 53 = 9007199254740992 := by norm_num
    cases e with
    | zero =>
      rw [pow_zero, mul_one] at hv
      omega
    | succ f =>
      have h2 : (2 : Nat) ∣ m * 2 ^ (f + 1) := ⟨m * 2 ^ f, by ring⟩
      rw [← hv] at h2
      omega

/-- Modelled from the spec (the `ChannelError` type is not under `src/`): an abstract
channel-layer error; the concrete variants do not matter for the claims. -/
inductive ChannelError where
  | err
deriving DecidableEq

/-- Modelled from the spec (the `ConsensusState` trait is not under `src/`): the only
capability `host_timestamp` uses is reading the state's timestamp. -/
structure ConsensusState where
  timestamp : Timestamp

/-- The default method `ChannelReader::host_timestamp` (context.rs lines 129-134),
as a function of the outcome of `pending_host_consensus_state`: the source calls
`.expect("host must have pending consensus state")` on that outcome, so an `Err` from
`pending_host_consensus_state` becomes a panic, and only the `Ok` path returns — always
as `Ok(timestamp)`. -/
def ChannelReader.host_timestamp
    (pending_host_consensus_state : Except ChannelError ConsensusState) :
    PanicOr (Except ChannelError Timestamp) :=
  match pending_host_consensus_state with
  | .ok cs => .ok (.ok cs.timestamp)
  | .error _ => .panics

/-- C10: the default `ChannelReader::host_timestamp` never returns an `Err` value
despite its `Result` return type — whenever `pending_host_consensus_state` returns
`Err`, it panics through `expect` instead of propagating the error. -/
theorem host_timestamp_never_errs
    (pending : Except ChannelError ConsensusState) :
    (∀ e, ChannelReader.host_timestamp pending ≠ .ok (.error e)) ∧
    (∀ e, pending = .error e → ChannelReader.host_timestamp pending = .panics) := by
  constructor
  · intro e h
    cases pending <;> simp [ChannelReader.host_timestamp] at h
  · intro e h
    subst h
    rfl

/-- Witness for C10 at the concrete erroring outcome: `host_timestamp` panics. -/
theorem host_timestamp_never_errs_witness :
    ChannelReader.host_timestamp (Except.error ChannelError.err) = PanicOr.panics :=
  (host_timestamp_never_errs (Except.error ChannelError.err)).2 ChannelError.err rfl

end Ibc
